import Mathlib

/-!
# Verification of the NEM energy-data fetch/cache/aggregate pipeline

Shallow embedding of the core logic of the repository
(`App/src/fetch.py`, `App/src/utils.py`, `App/src/config.py`):

* date-range policy (`EnergyDataFetcher._calculate_date_range`),
* response normalization (`EnergyDataFetcher._process_api_response`),
* cache store (`_get_cache_filename`, `_load_from_cache`),
* fetch orchestration (`fetch_data`, `_fetch_dataset`, `_get_metric_enum`),
* statistics (`DataUtils.calculate_basic_stats`) and
* trend analysis (`TrendAnalyzer.analyze_trend_direction`).

Modelling conventions:

* Python machine floats are modelled as `ℚ` (exact arithmetic); the one
  genuinely irrational quantity, the sample standard deviation, is tracked
  through its square `stdSq` (pandas `std()` is the square root of it).
* Timestamps are modelled as `ℤ` instants: `pd.to_datetime` (an external
  library call) is modelled as the timestamps already being parsed into the
  canonical ordered instant type on which the sort compares.
* Python exceptions are modelled with `Except String`; a `try/except`
  handler is a `match` collapsing `.error` to the handler's return value.
* External collaborators (the `OEClient` API and the filesystem) are
  oracle parameters of the functions that call them.
-/

namespace NEM

/-! ## Data model (`spec.md` §3, `config.py`) -/

/-- A member of the external `openelectricity.types.DataMetric` enum.
The enum itself is an external collaborator; we model a member by its code
and model `getattr(DataMetric, name, None)` as an oracle
`resolve : String → Option DataMetric`. -/
structure DataMetric where
  code : String
deriving DecidableEq, Repr

/-- One entry of `Config.DATASETS`: interval plus either a day-based or a
month-based lookback (`months_back` with `exclude_current_month`). -/
structure DatasetConfig where
  interval : String
  monthsBack : Option ℤ
  excludeCurrentMonth : Bool
  daysBack : Option ℤ
deriving DecidableEq, Repr

/-- `Config.DATASETS['monthly_24months']`. -/
def monthly24Config : DatasetConfig :=
  { interval := "1M", monthsBack := some 23, excludeCurrentMonth := true, daysBack := none }

/-- `Config.DATASETS['hourly_1month']`. -/
def hourly1Config : DatasetConfig :=
  { interval := "1h", monthsBack := none, excludeCurrentMonth := false, daysBack := some 30 }

/-- `Config.DATASETS['fivemin_1week']`. -/
def fivemin1Config : DatasetConfig :=
  { interval := "5m", monthsBack := none, excludeCurrentMonth := false, daysBack := some 7 }

/-- `Config.DATASETS`, in iteration (insertion) order. -/
def configDatasets : List (String × DatasetConfig) :=
  [("monthly_24months", monthly24Config),
   ("hourly_1month", hourly1Config),
   ("fivemin_1week", fivemin1Config)]

/-- `Config.CACHE_EXPIRY_HOURS = 1/60` (one minute). -/
def CACHE_EXPIRY_HOURS : ℚ := 1 / 60

/-- `Config.DEFAULT_NETWORK`. -/
def DEFAULT_NETWORK : String := "NEM"

/-- `ErrorMessages.INVALID_METRIC` after `.format(metric=metric)`. -/
def invalidMetricMsg (metric : String) : String :=
  "❌ Invalid metric: " ++ metric

/-! ## API response shape (`spec.md` §6): series → results → points. -/

/-- A result object inside a series: `.data` is a sequence of points, each
decomposable (`point.root`) into `(timestamp, value)`. -/
structure SeriesResult where
  data : List (ℤ × ℚ)
deriving DecidableEq, Repr

/-- A series object of the API response. -/
structure Series where
  metric : String
  unit : String
  networkCode : String
  results : List SeriesResult
deriving DecidableEq, Repr

/-- An API response: `.data` is a sequence of series. -/
structure ApiResponse where
  data : List Series
deriving DecidableEq, Repr

/-- One row of the normalized tidy table
(`{timestamp, value, metric, unit, interval, network}`). -/
structure Row where
  timestamp : ℤ
  value : ℚ
  metric : String
  unit : String
  interval : String
  network : String
deriving DecidableEq, Repr

/-- A normalized dataset table: ordered rows. -/
abbrev Frame := List Row

/-! ## ResponseNormalizer (`EnergyDataFetcher._process_api_response`) -/

/-- Comparison used by `df.sort_values('timestamp')`: ascending timestamps. -/
def Row.le (a b : Row) : Prop := a.timestamp ≤ b.timestamp

instance : DecidableRel Row.le := fun a b =>
  inferInstanceAs (Decidable (a.timestamp ≤ b.timestamp))

instance : IsTotal Row Row.le := ⟨fun a b => le_total a.timestamp b.timestamp⟩

instance : IsTrans Row Row.le := ⟨fun _ _ _ h h' => le_trans h h'⟩

/-- `df.sort_values('timestamp')`: sort rows ascending by timestamp. -/
def sortByTimestamp (l : List Row) : List Row :=
  l.insertionSort Row.le

/-- `EnergyDataFetcher._process_api_response(response, config, dataset_key)`.
`response` is `Option`al because the client may return a falsy response
(`if not response or not response.data: return None`).  Every point of every
result of every series becomes one row; an empty flattened collection yields
`none`; otherwise the rows are sorted ascending by timestamp.
(`DataUtils.safe_convert_datetime` is the external timestamp parse, modelled
as the identity on already-parsed `ℤ` instants.) -/
def processApiResponse (response : Option ApiResponse) (config : DatasetConfig) :
    Option Frame :=
  match response with
  | none => none
  | some resp =>
    if resp.data.isEmpty then none
    else
      let dfData : List Row := resp.data.flatMap fun series =>
        if series.results.isEmpty then []
        else series.results.flatMap fun result =>
          result.data.map fun point =>
            { timestamp := point.1
              value := point.2
              metric := series.metric
              unit := series.unit
              interval := config.interval
              network := series.networkCode }
      if dfData.isEmpty then none
      else some (sortByTimestamp dfData)

/-! ## DateRangePolicy (`EnergyDataFetcher._calculate_date_range`) -/

/-- The `end_date` of the month-based branch: first instant of the month
before `now`'s month, handling the January → December rollover.  A month is
represented as a `(year, month)` pair (the code always uses day 1, 00:00). -/
def monthlyEnd (nowYear nowMonth : ℤ) : ℤ × ℤ :=
  if nowMonth = 1 then (nowYear - 1, 12) else (nowYear, nowMonth - 1)

/-- The `start_date` of the month-based branch, from the computed end month:
`total_months = end.year*12 + end.month - months_back`, Python floor
division/modulo by 12 (`Int.fdiv`/`Int.fmod`), month-index 0 decoded as
December of the prior year. -/
def monthlyStart (endYM : ℤ × ℤ) (monthsBack : ℤ) : ℤ × ℤ :=
  let totalMonths := endYM.1 * 12 + endYM.2 - monthsBack
  let startYear := totalMonths.fdiv 12
  let startMonth := totalMonths.fmod 12
  if startMonth = 0 then (startYear - 1, 12) else (startYear, startMonth)

/-- The date range passed to the API call: either a month-granularity pair of
`(year, month)` months, or a day-based window (`end = now`,
`start = now - days_back`). -/
inductive DateRange
  | monthly (startYM endYM : ℤ × ℤ)
  | daily (daysBack : ℤ)
deriving DecidableEq, Repr

/-- `EnergyDataFetcher._calculate_date_range(config)`.  `nowYear`/`nowMonth`
are `datetime.now()`'s calendar fields.  The day-based branch reads
`config['days_back']`; a missing key raises `KeyError` (an `Except.error`),
which the caller's blanket handler later swallows. -/
def calculateDateRange (config : DatasetConfig) (nowYear nowMonth : ℤ) :
    Except String DateRange :=
  match config.excludeCurrentMonth, config.monthsBack with
  | true, some mb =>
    let e := monthlyEnd nowYear nowMonth
    .ok (.monthly (monthlyStart e mb) e)
  | _, _ =>
    match config.daysBack with
    | none => .error "KeyError: days_back"
    | some d => .ok (.daily d)

/-! ## Metric resolution (`EnergyDataFetcher._get_metric_enum`) -/

/-- `EnergyDataFetcher._get_metric_enum(metric)`:
`getattr(DataMetric, metric.upper(), None)` is the oracle `resolve` applied
to the upper-cased name; an unresolved name raises
`ValueError(INVALID_METRIC)`, modelled as `Except.error`. -/
def getMetricEnum (resolve : String → Option DataMetric) (metric : String) :
    Except String DataMetric :=
  match resolve metric.toUpper with
  | none => .error (invalidMetricMsg metric)
  | some m => .ok m

/-! ## Fetch orchestration (`_fetch_dataset`, `fetch_data`)

The API client is the oracle
`api : DataMetric → String → DateRange → Except String (Option ApiResponse)`
(arguments: resolved metric, interval, date range): `.error` models the call
raising, `.ok none` a falsy response object. -/

/-- The body of the `try:` block of `EnergyDataFetcher._fetch_dataset`, in
source order: compute the date range, resolve the metric enum, call the API,
normalize.  An `.error` is an exception escaping the `try` body. -/
def fetchDatasetBody (resolve : String → Option DataMetric)
    (api : DataMetric → String → DateRange → Except String (Option ApiResponse))
    (config : DatasetConfig) (metric : String) (nowYear nowMonth : ℤ) :
    Except String (Option Frame) :=
  match calculateDateRange config nowYear nowMonth with
  | .error e => .error e
  | .ok range =>
    match getMetricEnum resolve metric with
    | .error e => .error e
    | .ok metricEnum =>
      match api metricEnum config.interval range with
      | .error e => .error e
      | .ok response => .ok (processApiResponse response config)

/-- `EnergyDataFetcher._fetch_dataset`: the `try` body with its blanket
`except Exception` handler, which logs and returns `None` — every exception,
including the `ValueError` from metric resolution, becomes `none`. -/
def fetchDataset (resolve : String → Option DataMetric)
    (api : DataMetric → String → DateRange → Except String (Option ApiResponse))
    (config : DatasetConfig) (metric : String) (nowYear nowMonth : ℤ) :
    Option Frame :=
  match fetchDatasetBody resolve api config metric nowYear nowMonth with
  | .error _ => none
  | .ok v => v

/-- `EnergyDataFetcher.fetch_data(metric, use_cache)` looping over the given
dataset specs in order.  `loadCache key` is the oracle for
`self._load_from_cache(key, metric)` (verified separately as
`loadFromCache`); a cache hit is adopted without an API call, otherwise the
dataset is fetched and stored only if the fetch returned a table
(`_save_to_cache` is a write-through side effect with no bearing on the
returned mapping).  The result mapping is the association list in insertion
order. -/
def fetchData (resolve : String → Option DataMetric)
    (api : DataMetric → String → DateRange → Except String (Option ApiResponse))
    (loadCache : String → Option Frame)
    (datasets : List (String × DatasetConfig)) (metric : String)
    (useCache : Bool) (nowYear nowMonth : ℤ) : List (String × Frame) :=
  match datasets with
  | [] => []
  | (key, config) :: rest =>
    let tail := fetchData resolve api loadCache rest metric useCache nowYear nowMonth
    match (if useCache then loadCache key else none) with
    | some cachedDf => (key, cachedDf) :: tail
    | none =>
      match fetchDataset resolve api config metric nowYear nowMonth with
      | some df => (key, df) :: tail
      | none => tail

/-- The per-dataset outcome of one `fetch_data` loop iteration: cache hit if
`use_cache` and the cache is fresh, else the API fetch.  `fetch_data` is
exactly `filterMap` of this over the specs (`fetchData_eq_filterMap`). -/
def datasetOutcome (resolve : String → Option DataMetric)
    (api : DataMetric → String → DateRange → Except String (Option ApiResponse))
    (loadCache : String → Option Frame) (metric : String) (useCache : Bool)
    (nowYear nowMonth : ℤ) (entry : String × DatasetConfig) : Option Frame :=
  match (if useCache then loadCache entry.1 else none) with
  | some cachedDf => some cachedDf
  | none => fetchDataset resolve api entry.2 metric nowYear nowMonth

/-! ## CacheStore (`_get_cache_filename`, `_load_from_cache`) -/

/-- `EnergyDataFetcher._get_cache_filename(dataset_key, metric)`:
`f"{network}_{metric}_{dataset_key}.csv"`. -/
def getCacheFilename (networkCode metric datasetKey : String) : String :=
  networkCode ++ "_" ++ metric ++ "_" ++ datasetKey ++ ".csv"

/-- The on-disk state behind one cache filename: the file's creation time
(`os.path.getctime`, seconds) and the outcome of `pd.read_csv` on it
(`.error` = the read/parse raises). -/
structure CacheFile where
  ctime : ℚ
  parseResult : Except String Frame
deriving Repr

/-- The body of the `try:` block of `EnergyDataFetcher._load_from_cache`:
missing file → `None`; age in hours (from file creation time) strictly above
`Config.CACHE_EXPIRY_HOURS` → `None`; else the parsed frame
(`safe_convert_datetime` modelled as the identity).  An `.error` is the
`pd.read_csv` exception escaping the `try` body. -/
def loadFromCacheBody (file : Option CacheFile) (now expiryHours : ℚ) :
    Except String (Option Frame) :=
  match file with
  | none => .ok none
  | some f =>
    let ageHours := (now - f.ctime) / 3600
    if ageHours > expiryHours then .ok none
    else
      match f.parseResult with
      | .error e => .error e
      | .ok df => .ok (some df)

/-- `EnergyDataFetcher._load_from_cache`: the `try` body with its
`except Exception` handler, which logs `CACHE_LOAD_ERROR` and returns `None`
— no exception propagates past this boundary. -/
def loadFromCache (file : Option CacheFile) (now expiryHours : ℚ) :
    Option Frame :=
  match loadFromCacheBody file now expiryHours with
  | .error _ => none
  | .ok v => v

/-! ## StatsEngine (`DataUtils.calculate_basic_stats`) -/

/-- A pandas `DataFrame` restricted to what the stats code touches:
column-oriented numeric data.  (pandas frames are rectangular; where a proof
needs this, it is an explicit `Rectangular` hypothesis.) -/
structure DataFrame where
  cols : List (String × List ℚ)
deriving DecidableEq, Repr

/-- `df.columns`. -/
def DataFrame.columns (df : DataFrame) : List String := df.cols.map Prod.fst

/-- `df[c]`: the data of column `c` (the stats code only reads columns it has
validated to exist). -/
def DataFrame.getCol (df : DataFrame) (c : String) : List ℚ :=
  (df.cols.lookup c).getD []

/-- `len(df)`: the row count (length of the first column of a rectangular
frame, 0 for a frame with no columns). -/
def DataFrame.nrows (df : DataFrame) : ℕ :=
  (df.cols.head?.map fun p => p.2.length).getD 0

/-- `df.empty`. -/
def DataFrame.isEmpty (df : DataFrame) : Bool := df.nrows == 0

/-- All columns have the row count: pandas frames always satisfy this. -/
def DataFrame.Rectangular (df : DataFrame) : Prop :=
  ∀ p ∈ df.cols, p.2.length = df.nrows

/-- `DataUtils.validate_dataframe(df, required_columns)`: `False` for a
missing or empty frame, else every required column must be present (the code
returns `True` outright when `required_columns` is falsy, which `List.all`
on `[]` matches). -/
def validateDataframe (df : Option DataFrame) (requiredColumns : List String) :
    Bool :=
  match df with
  | none => false
  | some d =>
    if d.isEmpty then false
    else requiredColumns.all fun c => d.columns.contains c

/-- `values.min()` of a nonempty pandas series (the 0 default is never
reached behind validation). -/
def seriesMin : List ℚ → ℚ
  | [] => 0
  | x :: xs => xs.foldl min x

/-- `values.max()` of a nonempty pandas series. -/
def seriesMax : List ℚ → ℚ
  | [] => 0
  | x :: xs => xs.foldl max x

/-- `values.mean()`. -/
def seriesMean (values : List ℚ) : ℚ := values.sum / (values.length : ℚ)

/-- The square of `values.std()` (pandas default `ddof=1`): the sample
variance `Σ (x - mean)² / (n - 1)`. -/
def sampleVariance (values : List ℚ) : ℚ :=
  let μ := seriesMean values
  (values.map fun x => (x - μ) ^ 2).sum / ((values.length : ℚ) - 1)

/-- The numeric fields of `calculate_basic_stats`'s result dict.  `stdSq` is
the square of the reported `std`; the informational `date_range` entry is
outside every claim and omitted. -/
structure StatsSummary where
  count : ℕ
  min : ℚ
  max : ℚ
  mean : ℚ
  stdSq : ℚ
deriving DecidableEq, Repr

/-- `DataUtils.calculate_basic_stats(df, value_column)`: the
`{'error': 'Invalid data'}` marker when validation fails, else count, min,
max, mean and sample std over the value column, with `std = 0.0` when fewer
than 2 values exist. -/
def calculateBasicStats (df : Option DataFrame) (valueColumn : String) :
    Except String StatsSummary :=
  if validateDataframe df [valueColumn] then
    match df with
    | none => .error "Invalid data"
    | some d =>
      let values := d.getCol valueColumn
      .ok { count := values.length
            min := seriesMin values
            max := seriesMax values
            mean := seriesMean values
            stdSq := if 1 < values.length then sampleVariance values else 0 }
  else .error "Invalid data"

/-! ## TrendAnalyzer (`TrendAnalyzer.analyze_trend_direction`) -/

/-- `TrendAnalyzer.analyze_trend_direction(values)`: fewer than 2 values →
`'insufficient_data'`; else split at `len(values)//2`, compare the halves'
means, `'increasing'` iff the second-half mean is strictly greater. -/
def analyzeTrendDirection (values : List ℚ) : String :=
  if values.length < 2 then "insufficient_data"
  else
    let n := values.length
    let firstHalf := (values.take (n / 2)).sum / ((n / 2 : ℕ) : ℚ)
    let secondHalf := (values.drop (n / 2)).sum / ((n - n / 2 : ℕ) : ℚ)
    if secondHalf > firstHalf then "increasing" else "decreasing"

/-! ## Concrete fixtures used by counterexamples and witnesses -/

/-- A metric-resolution oracle on which no name resolves (no attribute of
`DataMetric` matches). -/
def noResolve : String → Option DataMetric := fun _ => none

/-- A resolution oracle on which every name resolves to the member of that
name (a `DataMetric` attribute lookup that succeeds). -/
def anyResolve : String → Option DataMetric := fun s => some ⟨s⟩

/-- An API oracle that always answers with one series, one result, one
point. -/
def onePointApi : DataMetric → String → DateRange → Except String (Option ApiResponse) :=
  fun _ _ _ => .ok (some ⟨[⟨"power", "MW", "NEM", [⟨[(5, 1)]⟩]⟩]⟩)

/-- An API oracle whose every call raises (a transport failure). -/
def failingApi : DataMetric → String → DateRange → Except String (Option ApiResponse) :=
  fun _ _ _ => .error "ConnectionError"

/-- A response holding two points that share a timestamp. -/
def dupTimestampResponse : Option ApiResponse :=
  some ⟨[⟨"power", "MW", "NEM", [⟨[(5, 1), (5, 2)]⟩]⟩]⟩

/-- The identity triples `(network, metric, dataset_key)` that actually
occur: `DEFAULT_NETWORK` × `DEFAULT_METRICS` × the keys of
`Config.DATASETS`. -/
def configuredTriples : List (String × String × String) :=
  [("NEM", "POWER", "monthly_24months"), ("NEM", "POWER", "hourly_1month"),
   ("NEM", "POWER", "fivemin_1week"), ("NEM", "MARKET_VALUE", "monthly_24months"),
   ("NEM", "MARKET_VALUE", "hourly_1month"), ("NEM", "MARKET_VALUE", "fivemin_1week")]

/-- A cache oracle for the `C2` witness: fresh cache entries for every key
except `hourly_1month`. -/
def hourlyMissCache : String → Option Frame := fun key =>
  if key = "hourly_1month" then none else some [⟨5, 1, "power", "MW", "1h", "NEM"⟩]

/-! ## Helper lemmas -/

/-- A table returned by the normalizer is sorted ascending by timestamp. -/
theorem processApiResponse_sorted (response : Option ApiResponse)
    (config : DatasetConfig) (rows : Frame)
    (h : processApiResponse response config = some rows) :
    List.Sorted (· ≤ ·) (rows.map Row.timestamp) := by
  match response with
  | none => simp [processApiResponse] at h
  | some resp =>
    simp only [processApiResponse] at h
    split at h
    · exact absurd h (by simp)
    · split at h
      · exact absurd h (by simp)
      · have hrows : rows = sortByTimestamp _ := (Option.some.injEq _ _ ▸ h).symm
        subst hrows
        exact List.Pairwise.map Row.timestamp (fun _ _ hab => hab)
          (List.sorted_insertionSort Row.le _)

/-- A table returned by the normalizer is non-empty: the code returns `None`
instead of an empty table. -/
theorem processApiResponse_ne_nil (response : Option ApiResponse)
    (config : DatasetConfig) (rows : Frame)
    (h : processApiResponse response config = some rows) :
    rows ≠ [] := by
  match response with
  | none => simp [processApiResponse] at h
  | some resp =>
    simp only [processApiResponse] at h
    split at h
    · exact absurd h (by simp)
    · split at h
      · exact absurd h (by simp)
      · rename_i hne
        have hrows : rows = sortByTimestamp _ := (Option.some.injEq _ _ ▸ h).symm
        subst hrows
        intro hnil
        have := List.length_insertionSort Row.le
          (resp.data.flatMap fun series =>
            if series.results.isEmpty then []
            else series.results.flatMap fun result =>
              result.data.map fun point =>
                { timestamp := point.1, value := point.2, metric := series.metric,
                  unit := series.unit, interval := config.interval,
                  network := series.networkCode })
        rw [sortByTimestamp] at hnil
        rw [hnil] at this
        simp only [List.length_nil] at this
        exact hne (List.isEmpty_iff.mpr (List.eq_nil_of_length_eq_zero this.symm))

/-- A table adopted by `_fetch_dataset` comes from the normalizer, hence is
non-empty. -/
theorem fetchDataset_some_ne_nil (resolve : String → Option DataMetric)
    (api : DataMetric → String → DateRange → Except String (Option ApiResponse))
    (config : DatasetConfig) (metric : String) (nowYear nowMonth : ℤ) (df : Frame)
    (h : fetchDataset resolve api config metric nowYear nowMonth = some df) :
    df ≠ [] := by
  unfold fetchDataset fetchDatasetBody at h
  cases hr : calculateDateRange config nowYear nowMonth with
  | error e => rw [hr] at h; simp at h
  | ok range =>
    rw [hr] at h
    dsimp only at h
    cases hm : getMetricEnum resolve metric with
    | error e => rw [hm] at h; simp at h
    | ok metricEnum =>
      rw [hm] at h
      dsimp only at h
      cases ha : api metricEnum config.interval range with
      | error e => rw [ha] at h; simp at h
      | ok response =>
        rw [ha] at h
        exact processApiResponse_ne_nil response config df h

/-- `fetch_data` is `filterMap` of the per-dataset outcome over the specs:
each entry's contribution to the result mapping depends only on that
entry. -/
theorem fetchData_eq_filterMap (resolve : String → Option DataMetric)
    (api : DataMetric → String → DateRange → Except String (Option ApiResponse))
    (loadCache : String → Option Frame) (datasets : List (String × DatasetConfig))
    (metric : String) (useCache : Bool) (nowYear nowMonth : ℤ) :
    fetchData resolve api loadCache datasets metric useCache nowYear nowMonth =
      datasets.filterMap fun e =>
        (datasetOutcome resolve api loadCache metric useCache nowYear nowMonth e).map
          fun df => (e.1, df) := by
  induction datasets with
  | nil => rfl
  | cons head rest ih =>
    obtain ⟨key, config⟩ := head
    simp only [fetchData, List.filterMap_cons, datasetOutcome, ih]
    cases hcache : (if useCache then loadCache key else none) with
    | some cachedDf => simp
    | none =>
      cases hf : fetchDataset resolve api config metric nowYear nowMonth with
      | some df => simp
      | none => simp

/-- The start month of the month-based range decodes `total_months`
correctly: it lies `monthsBack` calendar months before the end month, with a
month component in `1..12` (a zero month-index becomes December of the prior
year). -/
theorem monthlyStart_decode (e : ℤ × ℤ) (monthsBack : ℤ) :
    (monthlyStart e monthsBack).1 * 12 + (monthlyStart e monthsBack).2 =
      e.1 * 12 + e.2 - monthsBack ∧
    1 ≤ (monthlyStart e monthsBack).2 ∧ (monthlyStart e monthsBack).2 ≤ 12 := by
  simp only [monthlyStart,
    Int.fdiv_eq_ediv _ (by norm_num : (0:ℤ) ≤ 12),
    Int.fmod_eq_emod _ (by norm_num : (0:ℤ) ≤ 12)]
  have h1 := Int.emod_nonneg (e.1 * 12 + e.2 - monthsBack) (by norm_num : (12:ℤ) ≠ 0)
  have h2 := Int.emod_lt_of_pos (e.1 * 12 + e.2 - monthsBack) (by norm_num : (0:ℤ) < 12)
  have h3 := Int.ediv_add_emod (e.1 * 12 + e.2 - monthsBack) 12
  split <;> simp <;> omega

/-! ## Claims -/

/-- **C4**: with `exclude_current_month=true`, for a reference instant in
month `M` of year `Y` the range's `end` is the first instant of month `M-1`
of year `Y` when `M>1`, and of December of year `Y-1` when `M==1`; and
`start` is the month `months_back` calendar months before `end` (decoded
from `total_months` with month-index 0 read as December of the prior
year, hence a month component in `1..12`). -/
theorem calculate_date_range_monthly_correct
    (config : DatasetConfig) (mb nowYear nowMonth : ℤ)
    (hex : config.excludeCurrentMonth = true) (hmb : config.monthsBack = some mb)
    (h1 : 1 ≤ nowMonth) (h2 : nowMonth ≤ 12) :
    calculateDateRange config nowYear nowMonth =
      .ok (.monthly (monthlyStart (monthlyEnd nowYear nowMonth) mb)
        (monthlyEnd nowYear nowMonth)) ∧
    (1 < nowMonth → monthlyEnd nowYear nowMonth = (nowYear, nowMonth - 1)) ∧
    (nowMonth = 1 → monthlyEnd nowYear nowMonth = (nowYear - 1, 12)) ∧
    (monthlyStart (monthlyEnd nowYear nowMonth) mb).1 * 12 +
        (monthlyStart (monthlyEnd nowYear nowMonth) mb).2 =
      (monthlyEnd nowYear nowMonth).1 * 12 + (monthlyEnd nowYear nowMonth).2 - mb ∧
    1 ≤ (monthlyStart (monthlyEnd nowYear nowMonth) mb).2 ∧
    (monthlyStart (monthlyEnd nowYear nowMonth) mb).2 ≤ 12 := by
  refine ⟨?_, ?_, ?_, (monthlyStart_decode _ mb).1, (monthlyStart_decode _ mb).2.1,
    (monthlyStart_decode _ mb).2.2⟩
  · simp [calculateDateRange, hex, hmb]
  · intro h
    simp [monthlyEnd, show nowMonth ≠ 1 by omega]
  · intro h
    simp [monthlyEnd, h]

/-- Witness for **C4** at the January rollover: a reference instant in
January 2024 with the configured `months_back = 23`. -/
theorem calculate_date_range_monthly_witness :
    calculateDateRange monthly24Config 2024 1 =
      .ok (.monthly (monthlyStart (monthlyEnd 2024 1) 23) (monthlyEnd 2024 1)) ∧
    monthlyEnd 2024 1 = (2023, 12) ∧
    (monthlyStart (monthlyEnd 2024 1) 23).1 * 12 + (monthlyStart (monthlyEnd 2024 1) 23).2 =
      (monthlyEnd 2024 1).1 * 12 + (monthlyEnd 2024 1).2 - 23 ∧
    monthlyStart (2023, 12) 23 = (2022, 1) := by
  have h := calculate_date_range_monthly_correct monthly24Config 23 2024 1 rfl rfl
    (by norm_num) (by norm_num)
  exact ⟨h.1, h.2.2.1 rfl, h.2.2.2.1, by decide⟩

/-- **C7**: trend direction returns `'insufficient_data'` for fewer than 2
values; otherwise it splits at `floor(count/2)` (the first half never larger
than the second), compares the halves' arithmetic means, and returns
`'increasing'` exactly when the second-half mean is strictly greater, else
`'decreasing'`. -/
theorem trend_direction_correct (values : List ℚ) :
    (values.length < 2 → analyzeTrendDirection values = "insufficient_data") ∧
    (2 ≤ values.length →
      (values.take (values.length / 2)).length ≤
        (values.drop (values.length / 2)).length ∧
      analyzeTrendDirection values =
        if (values.take (values.length / 2)).sum / ((values.length / 2 : ℕ) : ℚ) <
            (values.drop (values.length / 2)).sum /
              ((values.length - values.length / 2 : ℕ) : ℚ)
        then "increasing" else "decreasing") := by
  constructor
  · intro h
    simp [analyzeTrendDirection, h]
  · intro h
    refine ⟨?_, ?_⟩
    · simp only [List.length_take, List.length_drop]
      omega
    · simp only [analyzeTrendDirection, if_neg (show ¬values.length < 2 by omega)]

/-- Witness for **C7** on `[1,1,1,5,5,5]`: halves of equal size and an
`'increasing'` verdict. -/
theorem trend_direction_witness :
    ([(1:ℚ), 1, 1, 5, 5, 5].take 3).length ≤ ([(1:ℚ), 1, 1, 5, 5, 5].drop 3).length ∧
    analyzeTrendDirection [1, 1, 1, 5, 5, 5] = "increasing" := by
  have h := (trend_direction_correct [1, 1, 1, 5, 5, 5]).2 (by norm_num)
  refine ⟨h.1, ?_⟩
  rw [h.2]
  norm_num

/-- **C3**: `_load_from_cache` returns `None` exactly when the file is
missing, the file cannot be read/parsed, or the age from file creation time
strictly exceeds the expiry threshold; a readable entry aged at or below the
threshold is returned; and a read/parse exception inside the body is caught
and becomes `None`, never propagating past the function. -/
theorem cache_load_correct (file : Option CacheFile) (now expiryHours : ℚ) :
    (loadFromCache file now expiryHours = none ↔
      file = none ∨ ∃ f, file = some f ∧
        ((now - f.ctime) / 3600 > expiryHours ∨ ∃ msg, f.parseResult = .error msg)) ∧
    (∀ f t, file = some f → f.parseResult = .ok t →
      (now - f.ctime) / 3600 ≤ expiryHours →
      loadFromCache file now expiryHours = some t) ∧
    (∀ msg, loadFromCacheBody file now expiryHours = .error msg →
      loadFromCache file now expiryHours = none) := by
  refine ⟨?_, ?_, ?_⟩
  · cases file with
    | none => simp [loadFromCache, loadFromCacheBody]
    | some f =>
      by_cases hage : (now - f.ctime) / 3600 > expiryHours
      · simp [loadFromCache, loadFromCacheBody, hage]
      · cases hp : f.parseResult with
        | error msg =>
          simp [loadFromCache, loadFromCacheBody, hage, hp]
        | ok df =>
          simp [loadFromCache, loadFromCacheBody, hage, hp]
  · intro f t hf hp hage
    subst hf
    simp [loadFromCache, loadFromCacheBody, not_lt.mpr hage, hp]
  · intro msg hbody
    simp [loadFromCache, hbody]

/-- Witness for **C3**: an entry created at time 0 with
`CACHE_EXPIRY_HOURS = 1/60` is still served at exactly 60 seconds of age. -/
theorem cache_load_witness :
    loadFromCache (some ⟨0, .ok [⟨5, 1, "power", "MW", "1h", "NEM"⟩]⟩) 60
        CACHE_EXPIRY_HOURS =
      some [⟨5, 1, "power", "MW", "1h", "NEM"⟩] := by
  exact (cache_load_correct _ 60 CACHE_EXPIRY_HOURS).2.1 _ _ rfl rfl
    (by norm_num [CACHE_EXPIRY_HOURS])

/-- **C8** fails as stated: the `"{network}_{metric}_{dataset_key}.csv"`
scheme is not injective over arbitrary string triples, because `_` can also
occur inside a component. -/
theorem cache_filename_collision :
    getCacheFilename "a_b" "c" "d" = getCacheFilename "a" "b_c" "d" ∧
    (("a_b", "c", "d") : String × String × String) ≠ ("a", "b_c", "d") := by
  exact ⟨rfl, by decide⟩

/-- **C8 amended**: the filename scheme is injective over the identity
triples that actually occur (`DEFAULT_NETWORK` × `DEFAULT_METRICS` ×
the configured dataset keys): distinct configured triples get distinct
filenames. -/
theorem cache_filename_injective_on_configured :
    ∀ t₁ ∈ configuredTriples, ∀ t₂ ∈ configuredTriples, t₁ ≠ t₂ →
      getCacheFilename t₁.1 t₁.2.1 t₁.2.2 ≠ getCacheFilename t₂.1 t₂.2.1 t₂.2.2 := by
  decide

/-- Witness for **C8 amended**: the two configured metrics give different
cache files for the same dataset. -/
theorem cache_filename_injective_witness :
    getCacheFilename "NEM" "POWER" "monthly_24months" ≠
      getCacheFilename "NEM" "MARKET_VALUE" "monthly_24months" := by
  exact cache_filename_injective_on_configured
    ("NEM", "POWER", "monthly_24months") (by decide)
    ("NEM", "MARKET_VALUE", "monthly_24months") (by decide) (by decide)

/-- **C5**: normalization returns `None` on a missing/falsy response, on a
response with zero series, and on a response that produces zero rows; a
response with exactly one series holding one result with one point yields
exactly one row carrying that point's timestamp and value; and every
returned table is sorted ascending by timestamp (timestamps live in the
canonical instant type `ℤ` on which the sort compares). -/
theorem normalize_correct :
    (∀ config, processApiResponse none config = none) ∧
    (∀ config, processApiResponse (some ⟨[]⟩) config = none) ∧
    (∀ config resp, (∀ s ∈ resp.data, ∀ r ∈ s.results, r.data = []) →
      processApiResponse (some resp) config = none) ∧
    (∀ config m u n t v,
      processApiResponse (some ⟨[⟨m, u, n, [⟨[(t, v)]⟩]⟩]⟩) config =
        some [⟨t, v, m, u, config.interval, n⟩]) ∧
    (∀ response config rows, processApiResponse response config = some rows →
      List.Sorted (· ≤ ·) (rows.map Row.timestamp)) := by
  refine ⟨fun config => rfl, fun config => rfl, ?_, ?_, processApiResponse_sorted⟩
  · intro config resp hempty
    simp only [processApiResponse]
    by_cases hd : resp.data.isEmpty
    · simp [hd]
    · have hnil : (resp.data.flatMap fun series =>
          if series.results.isEmpty then []
          else series.results.flatMap fun result =>
            result.data.map fun point =>
              ({ timestamp := point.1, value := point.2, metric := series.metric,
                 unit := series.unit, interval := config.interval,
                 network := series.networkCode } : Row)) = [] := by
        refine List.flatMap_eq_nil_iff.mpr fun s hs => ?_
        by_cases hr : s.results.isEmpty
        · simp [hr]
        · simp only [if_neg hr]
          exact List.flatMap_eq_nil_iff.mpr fun r hrr => by
            rw [hempty s hs r hrr]; rfl
      simp only [hd, Bool.false_eq_true, if_false, hnil, List.isEmpty_nil, if_true]
  · intro config m u n t v
    simp [processApiResponse, sortByTimestamp, List.insertionSort]

/-- Witness for **C5**: the one-series/one-result/one-point response yields
one row, and that returned table is sorted. -/
theorem normalize_witness :
    processApiResponse (some ⟨[⟨"power", "MW", "NEM", [⟨[(5, 1)]⟩]⟩]⟩) hourly1Config =
      some [⟨5, 1, "power", "MW", "1h", "NEM"⟩] ∧
    List.Sorted (· ≤ ·)
      (([⟨5, 1, "power", "MW", "1h", "NEM"⟩] : Frame).map Row.timestamp) := by
  have h1 := normalize_correct.2.2.2.1 hourly1Config "power" "MW" "NEM" 5 1
  exact ⟨h1, normalize_correct.2.2.2.2 _ hourly1Config _ h1⟩

/-- **C9** fails as stated: normalization never deduplicates, so a response
holding two points with the same timestamp yields a table whose timestamps
are not unique. -/
theorem normalized_timestamps_not_unique :
    ¬ ∀ rows, processApiResponse dupTimestampResponse hourly1Config = some rows →
        (rows.map Row.timestamp).Nodup := by
  intro h
  have h2 := h [⟨5, 1, "power", "MW", "1h", "NEM"⟩, ⟨5, 2, "power", "MW", "1h", "NEM"⟩]
    (by norm_num [dupTimestampResponse, processApiResponse, sortByTimestamp,
      List.insertionSort, List.orderedInsert, Row.le, hourly1Config])
  simp [Row.timestamp] at h2

/-- **C9 amended**: the timestamps of every table produced by normalization
are monotonically non-decreasing in row order (uniqueness is not
guaranteed). -/
theorem normalized_timestamps_monotone (response : Option ApiResponse)
    (config : DatasetConfig) (rows : Frame)
    (h : processApiResponse response config = some rows) :
    List.Sorted (· ≤ ·) (rows.map Row.timestamp) :=
  processApiResponse_sorted response config rows h

/-- Witness for **C9 amended**: the duplicate-timestamp table is still
non-decreasing. -/
theorem normalized_timestamps_monotone_witness :
    List.Sorted (· ≤ ·)
      (([⟨5, 1, "power", "MW", "1h", "NEM"⟩, ⟨5, 2, "power", "MW", "1h", "NEM"⟩] : Frame).map
        Row.timestamp) := by
  exact normalized_timestamps_monotone dupTimestampResponse hourly1Config _
    (by norm_num [dupTimestampResponse, processApiResponse, sortByTimestamp,
      List.insertionSort, List.orderedInsert, Row.le, hourly1Config])

/-- **C6**: the stats summary returns the `'Invalid data'` error marker for
a missing frame, an empty frame, or a frame without the value column; every
successful summary reports the count, min, max, mean and sample standard
deviation of the value column, with std exactly `0.0` below 2 rows; and on
`[1,2,3,4]` it yields `count=4, min=1, max=4, mean=5/2` and a std whose
square is `5/3`, i.e. a std strictly between `1.29` and `1.30`. -/
theorem basic_stats_correct :
    (∀ c, calculateBasicStats none c = .error "Invalid data") ∧
    (∀ d c, d.isEmpty = true → calculateBasicStats (some d) c = .error "Invalid data") ∧
    (∀ d c, d.columns.contains c = false →
      calculateBasicStats (some d) c = .error "Invalid data") ∧
    (∀ d c s, calculateBasicStats (some d) c = .ok s →
      s.count = (d.getCol c).length ∧ s.min = seriesMin (d.getCol c) ∧
      s.max = seriesMax (d.getCol c) ∧ s.mean = seriesMean (d.getCol c) ∧
      (2 ≤ s.count → s.stdSq = sampleVariance (d.getCol c)) ∧
      (s.count < 2 → s.stdSq = 0)) ∧
    (calculateBasicStats (some ⟨[("value", [1, 2, 3, 4])]⟩) "value" =
        .ok ⟨4, 1, 4, 5 / 2, 5 / 3⟩ ∧
      ((129 : ℚ) / 100) ^ 2 < 5 / 3 ∧ (5 : ℚ) / 3 < ((13 : ℚ) / 10) ^ 2) := by
  refine ⟨fun c => rfl, ?_, ?_, ?_, ?_, by norm_num, by norm_num⟩
  · intro d c h
    simp [calculateBasicStats, validateDataframe, h]
  · intro d c h
    by_cases he : d.isEmpty
    · simp [calculateBasicStats, validateDataframe, he]
    · have hc : c ∉ d.columns := by simpa using h
      simp [calculateBasicStats, validateDataframe, he, hc]
  · intro d c s h
    simp only [calculateBasicStats] at h
    split at h
    · simp only [Except.ok.injEq] at h
      subst h
      refine ⟨rfl, rfl, rfl, rfl, fun h2 => ?_, fun h2 => ?_⟩
      · dsimp only at h2 ⊢
        rw [if_pos (show 1 < (d.getCol c).length by omega)]
      · dsimp only at h2 ⊢
        rw [if_neg (show ¬1 < (d.getCol c).length by omega)]
    · exact absurd h (by simp)
  · norm_num [calculateBasicStats, validateDataframe, DataFrame.isEmpty, DataFrame.nrows,
      DataFrame.columns, DataFrame.getCol, seriesMin, seriesMax, seriesMean, sampleVariance]

/-- Witness for **C6**: an empty frame yields the error marker, and a
one-row frame gets `std = 0.0`. -/
theorem basic_stats_witness :
    calculateBasicStats (some ⟨[("value", [])]⟩) "value" = .error "Invalid data" ∧
    (⟨1, 3, 3, 3, 0⟩ : StatsSummary).stdSq = 0 := by
  refine ⟨basic_stats_correct.2.1 ⟨[("value", [])]⟩ "value" rfl, ?_⟩
  have h := basic_stats_correct.2.2.2.1 ⟨[("value", [3])]⟩ "value" ⟨1, 3, 3, 3, 0⟩
    (by norm_num [calculateBasicStats, validateDataframe, DataFrame.isEmpty,
      DataFrame.nrows, DataFrame.columns, DataFrame.getCol, seriesMin, seriesMax,
      seriesMean])
  exact h.2.2.2.2.2 (by norm_num)

/-- **C1** fails as stated: the unknown-metric configuration error is raised
by `_get_metric_enum` inside `_fetch_dataset`'s `try` block (the body
errors), but the blanket `except Exception` converts it into an absent
dataset (`None`) — it does not reach `_fetch_dataset`'s caller.  The same
call with a resolvable metric succeeds, isolating the metric resolution as
the cause. -/
theorem metric_error_swallowed :
    getMetricEnum noResolve "BOGUS" = .error (invalidMetricMsg "BOGUS") ∧
    fetchDatasetBody noResolve onePointApi hourly1Config "BOGUS" 2024 5 =
      .error (invalidMetricMsg "BOGUS") ∧
    fetchDataset noResolve onePointApi hourly1Config "BOGUS" 2024 5 = none ∧
    fetchDataset anyResolve onePointApi hourly1Config "POWER" 2024 5 =
      some [⟨5, 1, "power", "MW", "1h", "NEM"⟩] := by
  refine ⟨rfl, rfl, rfl, ?_⟩
  norm_num [fetchDataset, fetchDatasetBody, calculateDateRange, hourly1Config,
    getMetricEnum, anyResolve, onePointApi, processApiResponse, sortByTimestamp,
    List.insertionSort]

/-- **C1 amended**: for every dataset config on which the API path is taken
(the date-range step succeeds), an unresolvable metric name makes
`_get_metric_enum` raise `ValueError(INVALID_METRIC)` immediately and the
`try` body of `_fetch_dataset` error with it, but `_fetch_dataset`'s blanket
exception handler swallows it: the caller sees `none` (an absent dataset,
indistinguishable from a data-fetch failure). -/
theorem metric_error_raised_then_caught (resolve : String → Option DataMetric)
    (api : DataMetric → String → DateRange → Except String (Option ApiResponse))
    (config : DatasetConfig) (metric : String) (nowYear nowMonth : ℤ)
    (hres : resolve metric.toUpper = none)
    (hrange : ∃ r, calculateDateRange config nowYear nowMonth = .ok r) :
    getMetricEnum resolve metric = .error (invalidMetricMsg metric) ∧
    fetchDatasetBody resolve api config metric nowYear nowMonth =
      .error (invalidMetricMsg metric) ∧
    fetchDataset resolve api config metric nowYear nowMonth = none := by
  obtain ⟨r, hr⟩ := hrange
  have hm : getMetricEnum resolve metric = .error (invalidMetricMsg metric) := by
    simp [getMetricEnum, hres]
  have hb : fetchDatasetBody resolve api config metric nowYear nowMonth =
      .error (invalidMetricMsg metric) := by
    simp [fetchDatasetBody, hr, hm]
  refine ⟨hm, hb, ?_⟩
  unfold fetchDataset
  rw [hb]

/-- Witness for **C1 amended**: the unknown metric `"BOGUS"` on the
five-minute dataset. -/
theorem metric_error_witness :
    fetchDataset noResolve failingApi fivemin1Config "BOGUS" 2024 5 = none := by
  exact (metric_error_raised_then_caught noResolve failingApi fivemin1Config "BOGUS"
    2024 5 rfl ⟨.daily 7, rfl⟩).2.2

/-- **C2**: `fetch_data` is a per-dataset `filterMap` — every entry's
contribution to the result mapping depends only on that entry's own outcome
— so a fetch/normalization failure for one dataset (its outcome `none`)
only removes that key: the batch over the remaining specs is exactly the
batch without the failed spec.  An API response with zero series is such a
failure: it makes `_fetch_dataset` return `none`. -/
theorem fetch_data_per_dataset_isolation (resolve : String → Option DataMetric)
    (api : DataMetric → String → DateRange → Except String (Option ApiResponse))
    (loadCache : String → Option Frame) (metric : String) (useCache : Bool)
    (nowYear nowMonth : ℤ) :
    (∀ datasets, fetchData resolve api loadCache datasets metric useCache nowYear nowMonth =
      datasets.filterMap fun e =>
        (datasetOutcome resolve api loadCache metric useCache nowYear nowMonth e).map
          fun df => (e.1, df)) ∧
    (∀ pre post key config,
      datasetOutcome resolve api loadCache metric useCache nowYear nowMonth
          (key, config) = none →
      fetchData resolve api loadCache (pre ++ (key, config) :: post) metric useCache
          nowYear nowMonth =
        fetchData resolve api loadCache (pre ++ post) metric useCache nowYear nowMonth) ∧
    (∀ config, (∀ m i r, api m i r = .ok (some ⟨[]⟩)) →
      fetchDataset resolve api config metric nowYear nowMonth = none) := by
  refine ⟨fun datasets => fetchData_eq_filterMap _ _ _ _ _ _ _ _, ?_, ?_⟩
  · intro pre post key config h
    rw [fetchData_eq_filterMap, fetchData_eq_filterMap, List.filterMap_append,
      List.filterMap_append, List.filterMap_cons]
    simp [h]
  · intro config hapi
    unfold fetchDataset fetchDatasetBody
    cases hr : calculateDateRange config nowYear nowMonth with
    | error e => rfl
    | ok range =>
      dsimp only
      cases hm : getMetricEnum resolve metric with
      | error e => rfl
      | ok metricEnum =>
        dsimp only
        rw [hapi metricEnum config.interval range]
        rfl

/-- Witness for **C2** over the configured specs: with a failing transport
and a cache that misses only `hourly_1month`, the batch result equals the
batch over the other two specs — the hourly failure does not abort it. -/
theorem fetch_data_isolation_witness :
    fetchData anyResolve failingApi hourlyMissCache configDatasets "POWER" true 2024 5 =
      fetchData anyResolve failingApi hourlyMissCache
        [("monthly_24months", monthly24Config), ("fivemin_1week", fivemin1Config)]
        "POWER" true 2024 5 := by
  exact (fetch_data_per_dataset_isolation anyResolve failingApi hourlyMissCache
    "POWER" true 2024 5).2.1 [("monthly_24months", monthly24Config)]
    [("fivemin_1week", fivemin1Config)] "hourly_1month" hourly1Config (by decide)

/-- **C10** (implicit): with `use_cache=false` every table stored in the
returned mapping is non-empty, because the normalizer returns `None` instead
of an empty table and `fetch_data` stores only non-`None` results. -/
theorem fetch_data_tables_nonempty (resolve : String → Option DataMetric)
    (api : DataMetric → String → DateRange → Except String (Option ApiResponse))
    (loadCache : String → Option Frame) (datasets : List (String × DatasetConfig))
    (metric : String) (nowYear nowMonth : ℤ) :
    ∀ kdf ∈ fetchData resolve api loadCache datasets metric false nowYear nowMonth,
      kdf.2 ≠ [] := by
  intro kdf hmem
  rw [fetchData_eq_filterMap] at hmem
  obtain ⟨e, he, hmap⟩ := List.mem_filterMap.mp hmem
  have hmap :
      (fetchDataset resolve api e.2 metric nowYear nowMonth).map
        (fun df => (e.1, df)) = some kdf := hmap
  cases ho : fetchDataset resolve api e.2 metric nowYear nowMonth with
  | none => rw [ho] at hmap; simp at hmap
  | some df =>
    rw [ho] at hmap
    have hkdf : (e.1, df) = kdf := by simpa using hmap
    have : kdf.2 = df := by rw [← hkdf]
    rw [this]
    exact fetchDataset_some_ne_nil resolve api e.2 metric nowYear nowMonth df ho

/-- Witness for **C10**: a fresh (`use_cache=false`) one-dataset batch whose
only stored table is non-empty. -/
theorem fetch_data_tables_nonempty_witness :
    (("hourly_1month", ([⟨5, 1, "power", "MW", "1h", "NEM"⟩] : Frame)) :
        String × Frame).2 ≠ [] := by
  refine fetch_data_tables_nonempty anyResolve onePointApi (fun _ => none)
    [("hourly_1month", hourly1Config)] "POWER" 2024 5 _ ?_
  norm_num [fetchData, fetchDataset, fetchDatasetBody, calculateDateRange,
    hourly1Config, getMetricEnum, anyResolve, onePointApi, processApiResponse,
    sortByTimestamp, List.insertionSort]

end NEM
